import Mathlib

/-!
Verification development for the `deep_research` workflow-graph engine
(`src/examples/pydantic_ai_examples/deep_research/graph.py` and companions).

The Python code is shallowly embedded: dataclasses become structures, the
mutating methods of `Handle` become pure functions returning the updated
handle together with the Python method's return value, `assert` failures and
the spec's build-time error taxonomy become `Except` errors, and the dynamic
`Any` typing is reflected by type parameters.
-/

/-- Modelled from the spec: `NodeId` lives in `nodes.py`, whose defining part is
absent from the sources (only the `Prompt` subclass is present); §3 of the spec
defines it as an opaque unique string identifier. -/
abbrev NodeId := String

/-- Embedding of `CallNode` (graph.py lines 20–26): a node owns an id and a
callable from (state, inputs) to an output.  The `async` wrapper is modelled as
a pure function; the missing `Node` base class contributes only the id per §3. -/
structure CallNode (StateT InT OutT : Type) where
  id : NodeId
  call : StateT → InT → OutT

/-- Embedding of `Interruption` (graph.py lines 29–32): a value carried to the
caller together with `next_node`, which in the source is a `Node[Any, ResumeT, Any]`
object (not a bare `NodeId`). -/
structure Interruption (StopT StateT ResumeT OutT : Type) where
  value : StopT
  next_node : CallNode StateT ResumeT OutT

/-- The four call-wiring shapes the `node` factory (graph.py lines 71–86) can
produce for the returned `CallNode`: which of `state` / `inputs` the wrapped
function receives. -/
inductive CallKind where
  | full
  | stateOnly
  | inputsOnly
  | empty
  deriving DecidableEq

/-- The assertion message of `node` (graph.py line 73). -/
def signature_error : String :=
  "Function may only make use of parameters \x27state\x27 and \x27inputs\x27"

/-- Embedding of the `node` factory (graph.py lines 71–86).  A Python function
signature is modelled by the ordered list of its parameter names; the factory
branches on membership of the names `state` and `inputs` and asserts the
parameter count.  The second and third guards are both
`elif 'state' in signature.parameters` exactly as in the source (lines 78 and 81),
so the third branch — the one that would wire an inputs-only function — is
reproduced faithfully, dead code included. -/
def node (fnName : String) (params : List String) : Except String (NodeId × CallKind) :=
  if "state" ∈ params ∧ "inputs" ∈ params then
    if params.length = 2 then .ok (fnName, .full) else .error signature_error
  else if "state" ∈ params then
    if params.length = 1 then .ok (fnName, .stateOnly) else .error signature_error
  else if "state" ∈ params then
    if params.length = 1 then .ok (fnName, .inputsOnly) else .error signature_error
  else
    if params.length = 0 then .ok (fnName, .empty) else .error signature_error

/-- Whether a `node` factory result is a successfully built inputs-only node. -/
def isInputsOnly : Except String (NodeId × CallKind) → Bool
  | .ok (_, .inputsOnly) => true
  | _ => false

/-- Embedding of `Handle` (graph.py lines 234–246).  `_source_type` is the
Python type object (modelled as a tag), `_is_instance` the predicate,
`_transforms` the tuple of transform callables (element type left abstract as
`T`), and the `init=False` fields `_end` / `_route_to` default to
`False` / `None`.  `N` is the node type a branch can route to. -/
structure Handle (V T N : Type) where
  _source_type : String
  _is_instance : V → Bool
  _transforms : List T := []
  _end : Bool := false
  _route_to : Option N := none

/-- Embedding of `Handle.end` (graph.py lines 248–252): sets `_end = True` on
the handle and returns `_source_type`.  The in-place mutation is modelled by
returning the updated handle alongside the method's return value.  (`end` is a
Lean keyword, hence the primed name.) -/
def Handle.end' (h : Handle V T N) : Handle V T N × String :=
  ({ h with _end := true }, h._source_type)

/-- Embedding of `Handle.route_to` (graph.py lines 254–256): sets `_route_to`
to the given node and returns `_source_type`. -/
def Handle.route_to (h : Handle V T N) (n : N) : Handle V T N × String :=
  ({ h with _route_to := some n }, h._source_type)

/-- Embedding of `Handle.transform` (graph.py lines 294–298): appends `call` to
the transform tuple and constructs a brand-new
`Handle(self._source_type, self._is_instance, new_transforms)`, whose
`init=False` fields therefore take their defaults again. -/
def Handle.transform (h : Handle V T N) (call : T) : Handle V T N :=
  { _source_type := h._source_type
    _is_instance := h._is_instance
    _transforms := h._transforms ++ [call] }

/-- Build-time errors.  The source's `build` can fail in exactly one way: the
`assert self._start_at is not None` on graph.py lines 133–135, which the spec's
taxonomy (§7) calls `MissingStart`; the message is the assert's message. -/
inductive BuildError where
  | MissingStart (msg : String)

/-- Embedding of `Graph` (graph.py lines 149–156): node registry (dict modelled
as an association list), start target (router or node, modelled as a sum with
the router type abstract as `R`), direct edges as (source id, transform,
destination id) triples (transform slot abstract as `T`), and routed edges as
(source id, router) pairs. -/
structure Graph (S V T R : Type) where
  nodes : List (NodeId × CallNode S V V)
  start_at : Sum R (CallNode S V V)
  edges : List (NodeId × Option T × NodeId)
  routed_edges : List (NodeId × R)

/-- Embedding of `GraphBuilder` (graph.py lines 94–112).  `_start_at` is
`Option`al to model the `is not None` check in `build`; `_simple_edges` and
`_routed_edges` start empty. -/
structure GraphBuilder (S V T R : Type) where
  _start_at : Option (Sum R (CallNode S V V))
  _simple_edges : List (CallNode S V V × Option T × CallNode S V V) := []
  _routed_edges : List (CallNode S V V × R) := []

/-- Embedding of `GraphBuilder.edge` (graph.py lines 114–121): appends the
(source, transform, destination) triple to `_simple_edges`. -/
def GraphBuilder.edge (b : GraphBuilder S V T R) (source : CallNode S V V)
    (transform : Option T) (destination : CallNode S V V) : GraphBuilder S V T R :=
  { b with _simple_edges := b._simple_edges ++ [(source, transform, destination)] }

/-- Embedding of `GraphBuilder.edges` (graph.py lines 123–128): appends the
(source, routing) pair to `_routed_edges`.  The routing rule is stored as the
function object it is; nothing evaluates it. -/
def GraphBuilder.edges (b : GraphBuilder S V T R) (source : CallNode S V V)
    (routing : R) : GraphBuilder S V T R :=
  { b with _routed_edges := b._routed_edges ++ [(source, routing)] }

/-- Embedding of `GraphBuilder.build` (graph.py lines 130–141): asserts that a
start target is set (else the `MissingStart` assertion fires), then returns a
`Graph` whose `nodes` dict is the literal `{}` from line 132 (the
`TODO: Build nodes from edges/decisions` is unimplemented), whose `edges` are
`[(e[0].id, e[1], e[2].id) for e in self._simple_edges]` and whose
`routed_edges` are `[(d[0].id, d[1]) for d in self._routed_edges]`.  No other
validation exists in the source. -/
def GraphBuilder.build (b : GraphBuilder S V T R) : Except BuildError (Graph S V T R) :=
  match b._start_at with
  | none => .error (.MissingStart
      "You must call `GraphBuilder.start_at` before building the graph.")
  | some s => .ok
      { nodes := []
        start_at := s
        edges := b._simple_edges.map fun e => (e.1.id, e.2.1, e.2.2.id)
        routed_edges := b._routed_edges.map fun d => (d.1.id, d.2) }

/-- One builder wiring call, for reasoning about sequences of `edge` / `edges`
invocations in the order client code makes them. -/
inductive BuilderCall (S V T R : Type) where
  | edge (source : CallNode S V V) (transform : Option T) (destination : CallNode S V V)
  | edges (source : CallNode S V V) (routing : R)

/-- Apply a sequence of builder wiring calls left to right. -/
def applyCalls (b : GraphBuilder S V T R) : List (BuilderCall S V T R) → GraphBuilder S V T R
  | [] => b
  | .edge s t d :: cs => applyCalls (b.edge s t d) cs
  | .edges s r :: cs => applyCalls (b.edges s r) cs

/-- The (source id, transform, destination id) triples of the `edge` calls of a
call sequence, in call order. -/
def edgeTriples : List (BuilderCall S V T R) → List (NodeId × Option T × NodeId)
  | [] => []
  | .edge s t d :: cs => (s.id, t, d.id) :: edgeTriples cs
  | .edges _ _ :: cs => edgeTriples cs

/-- The (source id, router) pairs of the `edges` calls of a call sequence, in
call order. -/
def routedPairs : List (BuilderCall S V T R) → List (NodeId × R)
  | [] => []
  | .edge _ _ _ :: cs => routedPairs cs
  | .edges s r :: cs => (s.id, r) :: routedPairs cs

/-- Run-time dispatch errors (spec §7). -/
inductive RunError where
  | NoMatchingRoute

/-- A branch of a routed edge's dispatch table: a predicate over the source
node's output, chained transforms, and a terminal action. -/
inductive Terminal (N : Type) where
  | endGraph
  | routeTo (n : N)

/-- A dispatch-table branch (spec §3, §4.3). -/
structure Branch (V T N : Type) where
  pred : V → Bool
  transforms : List T := []
  terminal : Terminal N

/-- Modelled from the spec: the dispatch decision of §4.3.  `Graph.run` and
`Graph.resume` (graph.py lines 167–176) raise `NotImplementedError`, so the
dispatch loop is absent from the sources; §4.3 prescribes that branches are
tested in registration order, the first matching branch wins, and no match
fails with `NoMatchingRoute`. -/
def selectBranch : List (Branch V T N) → V → Except RunError (Branch V T N)
  | [], _ => .error .NoMatchingRoute
  | b :: rest, v => if b.pred v then .ok b else selectBranch rest v

/-! Concrete instances used by witnesses, counterexamples and failing-input
evaluations. -/

/-- A concrete node named `A`. -/
def nodeA : CallNode Nat Nat Nat := { id := "A", call := fun _ _ => 0 }

/-- A concrete node named `B`; no builder in this file registers it anywhere. -/
def nodeB : CallNode Nat Nat Nat := { id := "B", call := fun _ _ => 0 }

/-- A concrete node with id `n` whose call returns 0. -/
def nodeC : CallNode Nat Nat Nat := { id := "n", call := fun _ _ => 0 }

/-- A concrete node that shares `nodeC`'s id but computes differently. -/
def nodeD : CallNode Nat Nat Nat := { id := "n", call := fun _ _ => 1 }

/-- A builder on which no start node and no start routing rule was supplied. -/
def noStartBuilder : GraphBuilder Nat Nat Nat Nat := { _start_at := none }

/-- A builder whose single direct edge references `nodeB`, a node registered
nowhere. -/
def danglingBuilder : GraphBuilder Nat Nat Nat Nat :=
  GraphBuilder.edge { _start_at := some (.inr nodeA) } nodeA none nodeB

/-- A concrete handle with no terminal action set. -/
def incompleteHandle : Handle Nat Nat Nat :=
  { _source_type := "Clarify", _is_instance := fun _ => true }

/-- A routing rule (modelled as a function, as in the source) that produces a
handle with no terminal action. -/
def incompleteRouter : Unit → Handle Nat Nat Nat := fun _ => incompleteHandle

/-- A builder with one routed edge whose routing rule yields a handle with no
terminal action. -/
def incompleteBranchBuilder : GraphBuilder Nat Nat Nat (Unit → Handle Nat Nat Nat) :=
  GraphBuilder.edges { _start_at := some (.inr nodeA) } nodeA incompleteRouter

/-- A concrete handle for the double-terminal-action counterexample. -/
def h0 : Handle Nat Nat Nat := { _source_type := "Refuse", _is_instance := fun v => v == 0 }

/-- Branch matching only the output 0. -/
def wb0 : Branch Nat Nat Nat := { pred := fun v => v == 0, terminal := .endGraph }

/-- Branch matching the output 5, declared before `wb2`. -/
def wb1 : Branch Nat Nat Nat := { pred := fun v => v == 5, terminal := .routeTo 1 }

/-- Branch also matching the output 5, declared after `wb1`. -/
def wb2 : Branch Nat Nat Nat := { pred := fun v => v == 5, terminal := .routeTo 2 }

/-! The claims. -/

/-- C1: for a routed edge whose ordered branch list is `pre ++ b :: post`, if no
branch of `pre` matches the output and `b` does, dispatch selects `b` —
whatever `b`'s position (`pre` arbitrary) and even when later-declared branches
in `post` also match (`post` unconstrained).  At most one branch fires because
`selectBranch` returns a single branch. -/
theorem C1_first_match_wins (pre post : List (Branch V T N)) (b : Branch V T N) (v : V)
    (hpre : ∀ p ∈ pre, p.pred v = false) (hb : b.pred v = true) :
    selectBranch (pre ++ b :: post) v = .ok b := by
  induction pre with
  | nil => simp [selectBranch, hb]
  | cons a rest ih =>
    have ha : a.pred v = false := hpre a (by simp)
    simp only [List.cons_append, selectBranch, ha, Bool.false_eq_true, if_false]
    exact ih fun p hp => hpre p (List.mem_cons_of_mem a hp)

/-- Witness for C1 at the spec's own test shape: two overlapping predicates
(`wb1` and `wb2` both match 5); the earlier-declared `wb1` is selected. -/
theorem C1_first_match_wins_witness :
    selectBranch [wb0, wb1, wb2] 5 = .ok wb1 :=
  C1_first_match_wins [wb0] [wb2] wb1 5
    (by
      intro p hp
      rw [List.mem_singleton] at hp
      subst hp
      rfl)
    rfl

/-- C2: building a graph on which no start node and no start routing rule was
supplied fails with the `MissingStart` assertion of graph.py lines 133–135 and
never returns a `Graph`. -/
theorem C2_missing_start (b : GraphBuilder S V T R) (h : b._start_at = none) :
    b.build = .error (BuildError.MissingStart
      "You must call `GraphBuilder.start_at` before building the graph.") := by
  simp [GraphBuilder.build, h]

/-- Witness for C2: the concrete start-less builder fails to build. -/
theorem C2_missing_start_witness :
    noStartBuilder.build = .error (BuildError.MissingStart
      "You must call `GraphBuilder.start_at` before building the graph.") :=
  C2_missing_start noStartBuilder rfl

/-- C3 (failing-input evaluation): `build` accepts a builder whose edge
references `nodeB`, registered nowhere — it returns a `Graph` whose node
registry is empty while the edge to `"B"` survives, instead of failing with
`UnknownNode`.  Indeed `BuildError` has no `UnknownNode` constructor because
the source's `build` (graph.py lines 130–141) can only fail its start assert. -/
theorem C3_build_accepts_dangling_edge :
    danglingBuilder.build = .ok
      { nodes := []
        start_at := .inr nodeA
        edges := [("A", none, "B")]
        routed_edges := [] } := rfl

/-- C4 (failing-input evaluation): `build` accepts a builder whose routed edge's
routing rule produces a handle with no terminal action — the rule is passed
through untouched and no `IncompleteBranch` failure exists; the handle it would
produce has `_end = false` and `_route_to = none`. -/
theorem C4_build_accepts_incomplete_branch :
    incompleteBranchBuilder.build = .ok
      { nodes := []
        start_at := .inr nodeA
        edges := []
        routed_edges := [("A", incompleteRouter)] }
    ∧ (incompleteRouter ())._end = false ∧ (incompleteRouter ())._route_to = none :=
  ⟨rfl, rfl, rfl⟩

/-- C5 counterexample: on the concrete handle `h0`, calling `end` and then
`route_to 7` raises no error — the second terminal action is recorded and
coexists with the first (`_end` stays `true` while `_route_to` becomes
`some 7`), refuting the claim that the second call fails. -/
theorem C5_counterexample :
    ((h0.end').1.route_to 7).1._end = true
    ∧ ((h0.end').1.route_to 7).1._route_to = some 7 := ⟨rfl, rfl⟩

/-- C5 amended: invoking a second terminal action on a Handle never fails —
neither `end` nor `route_to` checks whether a terminal action is already set,
so in either order both actions end up recorded on the handle. -/
theorem C5_second_terminal_action_coexists (h : Handle V T N) (n : N) :
    ((h.end').1.route_to n).1 = { h with _end := true, _route_to := some n }
    ∧ ((h.route_to n).1.end').1 = { h with _end := true, _route_to := some n } :=
  ⟨rfl, rfl⟩

/-- C6 counterexample: two `Interruption`s that agree on the carried value and
on the resumption target's `NodeId` are nevertheless different, because the
stored resumption target is the `Node` object itself (graph.py line 32), not a
`NodeId` — refuting the claim that the target is a NodeId identifier. -/
theorem C6_counterexample :
    nodeC.id = nodeD.id
    ∧ Interruption.mk (0 : Nat) nodeC ≠ (Interruption.mk 0 nodeD :
        Interruption Nat Nat Nat Nat) := by
  refine ⟨rfl, fun h => ?_⟩
  have h2 := congrArg (fun i : Interruption Nat Nat Nat Nat => i.next_node.call 0 0) h
  simp [nodeC, nodeD] at h2

/-- C6 amended: an `Interruption` is a pair of the value carried to the caller
and the `Node` object at which execution should resume (from which the
resumption `NodeId` is derivable as its `id`); `Graph.resume` likewise takes
the `Node` itself, not a bare `NodeId`. -/
theorem C6_interruption_carries_node (v : StopT) (n : CallNode S I O) :
    (Interruption.mk v n).value = v
    ∧ (Interruption.mk v n).next_node = n
    ∧ (Interruption.mk v n).next_node.id = n.id := ⟨rfl, rfl, rfl⟩

/-- C7 (failing-input evaluation): `build` stores the routing rule function
itself, unevaluated, in the returned graph's `routed_edges` — for every routing
rule `r`, the built graph carries `r` verbatim, so no ordered branch list is
produced at build time (and with `run`/`resume` unimplemented the rule is never
evaluated at all). -/
theorem C7_router_stored_unevaluated (r : Unit → Handle Nat Nat Nat) :
    (GraphBuilder.build
      { _start_at := some (.inr nodeA)
        _routed_edges := [(nodeA, r)] }) = .ok
      { nodes := []
        start_at := .inr nodeA
        edges := ([] : List (NodeId × Option Nat × NodeId))
        routed_edges := [("A", r)] } := rfl

/-- C8: a function whose only parameter is named `inputs` makes the `node`
factory fail with its assertion error, and no parameter list whatsoever can
reach the inputs-only wiring branch — the duplicated
`elif 'state' in signature.parameters` guard (graph.py lines 78 and 81) makes
that branch dead, despite the `InputNodeFunction` overload advertising it. -/
theorem C8_inputs_only_unreachable :
    (∀ fnName : String, node fnName ["inputs"] = .error signature_error)
    ∧ ∀ (fnName : String) (params : List String),
        isInputsOnly (node fnName params) = false := by
  constructor
  · intro fnName
    rfl
  · intro fnName params
    simp only [node]
    split
    · split <;> rfl
    · split
      · split <;> rfl
      · split <;> rfl

/-- C9: `Handle.transform` is pure in its receiver and returns a fresh handle:
the source type, predicate and transform list (with `f` appended) are carried
over, while the terminal-action fields revert to their defaults
(`_end = false`, `_route_to = none`) whatever terminal action `h` carried. -/
theorem C9_transform_returns_fresh_handle (h : Handle V T N) (f : T) :
    (h.transform f)._source_type = h._source_type
    ∧ (h.transform f)._is_instance = h._is_instance
    ∧ (h.transform f)._transforms = h._transforms ++ [f]
    ∧ (h.transform f)._end = false
    ∧ (h.transform f)._route_to = none := ⟨rfl, rfl, rfl, rfl, rfl⟩

/-- Helper for C10: applying wiring calls only appends to the builder's edge
lists, in call order. -/
theorem applyCalls_edges (b : GraphBuilder S V T R) (cs : List (BuilderCall S V T R)) :
    (applyCalls b cs)._simple_edges.map (fun e => (e.1.id, e.2.1, e.2.2.id)) =
        b._simple_edges.map (fun e => (e.1.id, e.2.1, e.2.2.id)) ++ edgeTriples cs
    ∧ (applyCalls b cs)._routed_edges.map (fun d => (d.1.id, d.2)) =
        b._routed_edges.map (fun d => (d.1.id, d.2)) ++ routedPairs cs
    ∧ (applyCalls b cs)._start_at = b._start_at := by
  induction cs generalizing b with
  | nil => simp [applyCalls, edgeTriples, routedPairs]
  | cons c rest ih =>
    cases c with
    | edge s t d =>
      obtain ⟨h1, h2, h3⟩ := ih (b.edge s t d)
      refine ⟨?_, ?_, ?_⟩
      · rw [applyCalls, h1]
        simp [GraphBuilder.edge, edgeTriples]
      · rw [applyCalls, h2]
        simp [GraphBuilder.edge, routedPairs]
      · rw [applyCalls, h3]
        rfl
    | edges s r =>
      obtain ⟨h1, h2, h3⟩ := ih (b.edges s r)
      refine ⟨?_, ?_, ?_⟩
      · rw [applyCalls, h1]
        simp [GraphBuilder.edges, edgeTriples]
      · rw [applyCalls, h2]
        simp [GraphBuilder.edges, routedPairs]
      · rw [applyCalls, h3]
        rfl

/-- C10: starting from a fresh builder with a start target and applying any
sequence of `edge` / `edges` calls, `build` returns a `Graph` whose `edges` are
exactly the (source id, transform, destination id) triples of the `edge` calls
in call order and whose `routed_edges` are exactly the (source id, router)
pairs of the `edges` calls in call order — nothing reordered, dropped or
added. -/
theorem C10_build_preserves_call_order (s : Sum R (CallNode S V V))
    (cs : List (BuilderCall S V T R)) :
    (applyCalls { _start_at := some s } cs).build = .ok
      { nodes := []
        start_at := s
        edges := edgeTriples cs
        routed_edges := routedPairs cs } := by
  obtain ⟨h1, h2, h3⟩ := applyCalls_edges ({ _start_at := some s } : GraphBuilder S V T R) cs
  rw [GraphBuilder.build, h3]
  simp only [List.map_nil, List.nil_append] at h1 h2
  simp [h1, h2]
